import Mathlib

/-
Verification of the extraction/selection logic of `magic-research-crawl`
(`src/main.py`), an interactive web-page extractor: fetch a page (static HTTP
or headless-browser render), extract tables / links / paragraphs / CSS-selected
elements, and save the result as CSV or JSON.

The embedding below translates `src/main.py` into Lean. External collaborators
(the HTTP client, the browser driver, the HTML parser `BeautifulSoup`, and the
table parser `pd.read_html`) are modelled as black boxes supplying their
results through an environment record, following the contracts the program
relies on (given a URL return HTML text; given HTML return a table list or an
element list). Python string primitives (`strip`, `lower`, `split`, `isdigit`
plus `int`) are re-implemented over `List Char` so that every definition
evaluates by kernel reduction.
-/

namespace Crawl

/-! ## Python string primitives, over the character list -/

/-- Model of Python `str.strip()`: drop whitespace from both ends. -/
def pyStrip (s : String) : String :=
  String.mk (((s.data.dropWhile Char.isWhitespace).reverse.dropWhile Char.isWhitespace).reverse)

/-- Model of Python `str.lower()` (ASCII case mapping). -/
def pyLower (s : String) : String :=
  String.mk (s.data.map Char.toLower)

/-- Split a character list at every occurrence of `sep`, keeping empty pieces,
so that the empty input yields one empty piece — Python `str.split(sep)`. -/
def splitOnChar (sep : Char) : List Char → List (List Char)
  | [] => [[]]
  | c :: cs =>
    let r := splitOnChar sep cs
    if c = sep then [] :: r
    else
      match r with
      | h :: t => (c :: h) :: t
      | [] => [[c]]

/-- Model of Python `s.split(",")`. -/
def pySplitComma (s : String) : List String :=
  (splitOnChar ',' s.data).map String.mk

/-- Decimal digits to a natural number, most significant first. -/
def digitsToNat (cs : List Char) : Nat :=
  cs.foldl (fun a c => a * 10 + (c.toNat - 48)) 0

/-- Model of Python `x.strip().isdigit()` guarding `int(x)`: the conversion of
one selection token to a table index, `none` when the token is rejected. -/
def pyTokenToNat (s : String) : Option Nat :=
  let t := (pyStrip s).data
  if t ≠ [] ∧ t.all Char.isDigit then some (digitsToNat t) else none

/-- Left brace character (0x7b), used by the JSON writer and reader. -/
def lbrace : Char := Char.ofNat 123

/-- Right brace character (0x7d), used by the JSON writer and reader. -/
def rbrace : Char := Char.ofNat 125

/-! ## Data model

`JField` is one cell/field value: a string, or the `null`/`NaN` produced for a
missing `href` attribute and for unaligned table columns. A `Record` is one
row of the record modes (LINKS / PARAGRAPHS / CSS_SELECTOR): an ordered list
of (field name, value) pairs, as built by the Python dict literals in
`extract_links` / `extract_paragraphs` / `extract_by_css`. -/

/-- A field value: text, or the null used for a missing attribute. -/
inductive JField where
  | str (s : String)
  | null
deriving DecidableEq

/-- One record of the record modes: ordered (field name, value) pairs. -/
def Record : Type := List (String × JField)

instance : DecidableEq Record := by
  unfold Record
  infer_instance

/-- A parsed table as returned by the table parser: column headers plus rows. -/
structure Table where
  columns : List String
  rows : List (List JField)
deriving DecidableEq

/-- An anchor element of the parsed document: visible text and the optional
`href` attribute (`a.get("href")` may be absent). -/
structure Anchor where
  text : String
  href : Option String

/-- Black-box model of the parsed document (`BeautifulSoup(html, "lxml")`):
its anchor elements, its paragraph texts (`get_text(" ", strip=True)`), and
`soup.select` as a function from a selector to the matched elements' texts. -/
structure Soup where
  anchors : List Anchor
  paras : List String
  selectTexts : String → List String

/-! ## Extractors (`extract_links`, `extract_paragraphs`, `extract_by_css`) -/

/-- Value stored under `"href"`: the attribute string, or null when absent. -/
def hrefField : Option String → JField
  | some h => JField.str h
  | none => JField.null

/-- Embedding of `extract_links` (src/main.py:82-84): one record
`{"text": ..., "href": ...}` per anchor, in document order. -/
def extract_links (soup : Soup) : List Record :=
  soup.anchors.map (fun a => [("text", JField.str a.text), ("href", hrefField a.href)])

/-- Embedding of `extract_paragraphs` (src/main.py:87-89): one record
`{"paragraph": ...}` per paragraph element, in document order. -/
def extract_paragraphs (soup : Soup) : List Record :=
  soup.paras.map (fun t => [("paragraph", JField.str t)])

/-- Embedding of `extract_by_css` (src/main.py:92-95): one record
`{"selector": ..., "text": ...}` per element matched by `soup.select`. -/
def extract_by_css (soup : Soup) (selector : String) : List Record :=
  (soup.selectTexts selector).map (fun t => [("selector", JField.str selector), ("text", JField.str t)])

/-! ## Table concatenation (`pd.concat(..., ignore_index=True)`) -/

/-- Union of column names preserving first-appearance order, the alignment
`pd.concat` performs on heterogeneous frames. -/
def unionCols (acc : List String) (cs : List String) : List String :=
  cs.foldl (fun a c => if c ∈ a then a else a ++ [c]) acc

/-- All column names of a table list, in first-appearance order. -/
def allCols (ts : List Table) : List String :=
  ts.foldl (fun a t => unionCols a t.columns) []

/-- Cell of a source row under a target column name: the positional cell when
the source table has that column, null (`NaN` gap) otherwise. -/
def lookupCell (t : Table) (row : List JField) (c : String) : JField :=
  match t.columns.findIdx? (fun c2 => c2 == c) with
  | some i => row.getD i JField.null
  | none => JField.null

/-- Stack the rows of all tables under the unioned columns. -/
def concatTables (ts : List Table) : Table :=
  let cols := allCols ts
  { columns := cols
    rows := ts.foldr (fun t acc => t.rows.map (fun row => cols.map (lookupCell t row)) ++ acc) [] }

/-- Embedding of `pd.concat(objs, ignore_index=True)`: pandas raises
`ValueError("No objects to concatenate")` on an empty object list, and
otherwise stacks the rows aligning columns by name. -/
def pdConcat : List Table → Except String Table
  | [] => Except.error "No objects to concatenate"
  | t :: ts => Except.ok (concatTables (t :: ts))

/-! ## Table disambiguation (`choose_tables`, src/main.py:63-79) -/

/-- Outcome of `choose_tables`: `sys.exit(code)`, a raised exception carrying
its message, or the concatenated table. -/
inductive ChooseOutcome where
  | exit (code : Nat)
  | raise (msg : String)
  | ok (t : Table)
deriving DecidableEq

/-- Embedding of line 78: `[int(x) for x in sel.split(",") if x.strip().isdigit()]`. -/
def parseSelIdxs (sel : String) : List Nat :=
  (pySplitComma sel).filterMap pyTokenToNat

/-- Embedding of the selection `[dfs[i] for i in idxs if i < len(dfs)]` of line 79. -/
def selectedTables (dfs : List Table) (sel : String) : List Table :=
  (parseSelIdxs sel).filterMap (fun i => dfs[i]?)

/-- Embedding of `choose_tables` (src/main.py:63-79). The user's selection
line is passed in as `selInput`; the function strips it, then dispatches on
empty input / `"all"` / an index list, concatenating with `pdConcat`. -/
def choose_tables (dfs : List Table) (selInput : String) : ChooseOutcome :=
  match dfs with
  | [] => ChooseOutcome.exit 1
  | d0 :: _ =>
    let sel := pyStrip selInput
    if sel = "" then
      match pdConcat [d0] with
      | Except.ok t => ChooseOutcome.ok t
      | Except.error m => ChooseOutcome.raise m
    else if pyLower sel = "all" then
      match pdConcat dfs with
      | Except.ok t => ChooseOutcome.ok t
      | Except.error m => ChooseOutcome.raise m
    else
      match pdConcat (selectedTables dfs sel) with
      | Except.ok t => ChooseOutcome.ok t
      | Except.error m => ChooseOutcome.raise m

/-! ## Result writer (`save_df`, src/main.py:99-106) -/

/-- Model of `pathlib.Path(name).stem` for the final path component: the
component without its last suffix; a dot at position 0 or at the very end is
not a suffix separator. -/
def pathStemOfName (comp : List Char) : List Char :=
  match (comp.enum.filter (fun p => p.2 = '.')).getLast? with
  | some (i, _) => if 0 < i ∧ i < comp.length - 1 then comp.take i else comp
  | none => comp

/-- Model of `Path(base_name).stem`: last slash-separated component, then the
suffix stripped. -/
def pathStem (s : String) : String :=
  let comps := (splitOnChar '/' s.data).filter (fun c => c ≠ [])
  match comps.getLast? with
  | some comp => String.mk (pathStemOfName comp)
  | none => ""

/-- Embedding of the filename derivation of `save_df` (src/main.py:100-101):
`Path(f"{base}.{fmt}")` with `base = Path(base_name).stem`. -/
def save_filename (base_name : String) (fmt : String) : String :=
  pathStem base_name ++ "." ++ fmt

/-! ## CSV writer for record-mode frames
(`pd.DataFrame(records).to_csv(fn, index=False)`) -/

/-- Column list of `pd.DataFrame(records)`: record keys in first-appearance
order; the empty record list yields a frame with no columns at all. -/
def dfColumns (data : List Record) : List String :=
  data.foldl (fun acc r => r.foldl (fun a kv => if kv.1 ∈ a then a else a ++ [kv.1]) acc) []

/-- CSV field quoting: fields containing a comma, a quote or a newline are
wrapped in quotes with inner quotes doubled. -/
def csvField (s : String) : String :=
  if s.data.contains ',' ∨ s.data.contains '"' ∨ s.data.contains '\n' then
    String.mk ('"' :: (s.data.foldr (fun c acc => if c = '"' then '"' :: '"' :: acc else c :: acc) ['"']))
  else s

/-- CSV text of one cell: the string value, or empty for null (pandas writes
missing values as empty fields). -/
def csvCell : JField → String
  | JField.str s => csvField s
  | JField.null => ""

/-- Value of a record under a column name, null when the key is absent. -/
def recordCell (r : Record) (c : String) : JField :=
  match r.find? (fun kv => kv.1 == c) with
  | some kv => kv.2
  | none => JField.null

/-- Header line of `to_csv(index=False)`: the comma-joined column names. -/
def csvHeader (data : List Record) : String :=
  String.intercalate "," ((dfColumns data).map csvField)

/-- Embedding of `df.to_csv(fn, index=False)` on a record-mode frame: header
line, then one line per record under the frame's columns. -/
def toCsvRecords (data : List Record) : String :=
  let cols := dfColumns data
  csvHeader data ++ "\n" ++
    String.join (data.map (fun r => String.intercalate "," (cols.map (fun c => csvCell (recordCell r c))) ++ "\n"))

/-! ## Page fetcher -/

/-- Black-box results of the browser steps of `fetch_dynamic_html`: whether
`driver.get(url)` raises, whether the fixed `time.sleep(wait)` raises, and
whether reading `driver.page_source` raises or returns the rendered HTML. -/
structure DynEnv where
  navigate : Except String Unit
  waitStep : Except String Unit
  pageSource : Except String String

/-- Result of the dynamic fetch: whether a launched browser session is still
running after the call returns or raises, and the returned HTML or the raised
exception. -/
structure DynResult where
  browserRunning : Bool
  result : Except String String

/-- Embedding of `fetch_dynamic_html` (src/main.py:26-41). The body is the
straight-line sequence `driver.get(url); time.sleep(wait); html =
driver.page_source; driver.quit(); return html` with no `try`/`finally`:
`driver.quit()` runs only after every earlier step succeeded, so an exception
raised by navigation, the wait, or the page-source capture propagates with the
launched browser still running. -/
def fetch_dynamic_html (d : DynEnv) : DynResult :=
  match d.navigate with
  | Except.error e => { browserRunning := true, result := Except.error e }
  | Except.ok _ =>
    match d.waitStep with
    | Except.error e => { browserRunning := true, result := Except.error e }
    | Except.ok _ =>
      match d.pageSource with
      | Except.error e => { browserRunning := true, result := Except.error e }
      | Except.ok html => { browserRunning := false, result := Except.ok html }

/-! ## Interactive driver (`main`, src/main.py:110-139) and the top-level
guard (src/main.py:142-148) -/

/-- The user's answers to the six interactive prompts, as typed (the driver
itself applies `strip`/`lower` where the source does). `tableSel` is the table
selection line read inside `choose_tables`. -/
structure Inputs where
  url : String
  what : String
  js : String
  tableSel : String
  cssSelector : String
  fmt : String
  name : String

/-- Black-box collaborator results for one run: the static HTTP fetch
(`requests.get` + `raise_for_status` + `.text`), the browser steps, the table
parser (`pd.read_html` via `safe_read_html`) and the HTML parser, both as
functions of the fetched HTML text. -/
structure Env where
  staticResult : Except String String
  dyn : DynEnv
  tablesOf : String → List Table
  soupOf : String → Soup

/-- Embedding of line 120: `js = input(...).strip().lower() == "e"`. -/
def usesDynamicFetch (jsInput : String) : Bool :=
  pyLower (pyStrip jsInput) == "e"

/-- Which fetch strategy line 121 runs. -/
inductive FetchPath where
  | dynamic
  | static
deriving DecidableEq

/-- Fetch-path selection of line 121: dynamic exactly when `usesDynamicFetch`. -/
def fetchPathFor (jsInput : String) : FetchPath :=
  if usesDynamicFetch jsInput then FetchPath.dynamic else FetchPath.static

/-- HTML obtained by line 121: `fetch_dynamic_html(url) if js else
fetch_static_html(url)`. -/
def fetchHtml (inp : Inputs) (env : Env) : Except String String :=
  match fetchPathFor inp.js with
  | FetchPath.dynamic => (fetch_dynamic_html env.dyn).result
  | FetchPath.static => env.staticResult

/-- The payload handed to `save_df`: a disambiguated table (TABLES mode) or a
record list (the other modes). -/
inductive ResultSet where
  | table (t : Table)
  | records (rs : List Record)
deriving DecidableEq

/-- How one call of `main()` terminates: it returned after saving a file, a
`sys.exit(code)` raised `SystemExit`, or some other exception escaped. -/
inductive MainResult where
  | saved (file : String) (rs : ResultSet)
  | exited (code : Nat)
  | raised (msg : String)
  | interrupted
deriving DecidableEq

/-- Embedding of `main` (src/main.py:110-139): fetch, parse, dispatch on the
stripped mode answer, then derive the output filename from the format answer
(lowercased, default `csv`) and the basename answer (default `extracted`). -/
def mainRun (inp : Inputs) (env : Env) : MainResult :=
  match fetchHtml inp env with
  | Except.error e => MainResult.raised e
  | Except.ok html =>
    let soup := env.soupOf html
    let what := pyStrip inp.what
    let fmt0 := pyLower (pyStrip inp.fmt)
    let fmt := if fmt0 = "" then "csv" else fmt0
    let nm0 := pyStrip inp.name
    let nm := if nm0 = "" then "extracted" else nm0
    if what = "1" then
      match choose_tables (env.tablesOf html) inp.tableSel with
      | ChooseOutcome.exit c => MainResult.exited c
      | ChooseOutcome.raise m => MainResult.raised m
      | ChooseOutcome.ok t => MainResult.saved (save_filename nm fmt) (ResultSet.table t)
    else if what = "2" then
      MainResult.saved (save_filename nm fmt) (ResultSet.records (extract_links soup))
    else if what = "3" then
      MainResult.saved (save_filename nm fmt) (ResultSet.records (extract_paragraphs soup))
    else if what = "4" then
      MainResult.saved (save_filename nm fmt) (ResultSet.records (extract_by_css soup (pyStrip inp.cssSelector)))
    else
      MainResult.exited 1

/-- Process exit code produced by the `__main__` guard (src/main.py:142-148):
`KeyboardInterrupt` and every other `Exception` are caught and the handler
falls off the end of the script, so the interpreter exits with status 0;
`SystemExit` (raised by `sys.exit`) is a `BaseException`, is not caught by
`except Exception`, and carries its code to the interpreter. -/
def topLevelExit : MainResult → Nat
  | MainResult.saved _ _ => 0
  | MainResult.exited c => c
  | MainResult.raised _ => 0
  | MainResult.interrupted => 0

/-- Line the `__main__` guard prints for the caught terminations. -/
def topLevelOutput : MainResult → Option String
  | MainResult.saved _ _ => none
  | MainResult.exited _ => none
  | MainResult.raised m => some ("🚨  Hata: " ++ m)
  | MainResult.interrupted => some "⛔️  Kullanıcı iptal etti."

/-! ## JSON writer for record-mode frames
(`df.to_json(fn, orient="records", force_ascii=False, indent=2)`,
src/main.py:105) and a JSON reader for the round-trip.

With `force_ascii=False` the writer emits string characters verbatim, only
escaping the quote, the backslash and the common control characters; non-Latin
text is not turned into `\uXXXX` sequences. The model emits the token stream
without the `indent` whitespace, which is insignificant to any JSON reader and
plays no role in the round-trip. -/

/-- Escape of one string character as written inside a JSON string literal. -/
def escChar (c : Char) : List Char :=
  if c = '"' then ['\\', '"']
  else if c = '\\' then ['\\', '\\']
  else if c = '\n' then ['\\', 'n']
  else if c = '\r' then ['\\', 'r']
  else if c = '\t' then ['\\', 't']
  else [c]

/-- Escaped form of a whole character list. -/
def escList : List Char → List Char
  | [] => []
  | c :: cs => escChar c ++ escList cs

/-- JSON text of one field value. -/
def writeVal : JField → List Char
  | JField.str s => '"' :: (escList s.data ++ ['"'])
  | JField.null => ['n', 'u', 'l', 'l']

/-- JSON text of one `"key": value` member. -/
def writeKV (k : String) (v : JField) : List Char :=
  '"' :: (escList k.data ++ ('"' :: ':' :: writeVal v))

/-- JSON text of an object body: comma-separated members. -/
def writeFields : Record → List Char
  | [] => []
  | [(k, v)] => writeKV k v
  | (k, v) :: kv2 :: t => writeKV k v ++ (',' :: writeFields (kv2 :: t))

/-- JSON text of one record: an object. -/
def writeRecord (r : Record) : List Char :=
  lbrace :: (writeFields r ++ [rbrace])

/-- JSON text of an array body: comma-separated records. -/
def writeRecords : List Record → List Char
  | [] => []
  | [r] => writeRecord r
  | r :: r2 :: t => writeRecord r ++ (',' :: writeRecords (r2 :: t))

/-- The file content `to_json(orient="records", force_ascii=False)` writes:
an array of one object per record. -/
def writeJson (rs : List Record) : String :=
  String.mk ('[' :: (writeRecords rs ++ [']']))

/-- Inverse of `escChar` on the character after a backslash. -/
def unescChar : Char → Option Char
  | '"' => some '"'
  | '\\' => some '\\'
  | 'n' => some '\n'
  | 'r' => some '\r'
  | 't' => some '\t'
  | _ => none

/-- Read a JSON string body up to its closing quote, undoing `escChar`. -/
def parseStrBody : List Char → Option (List Char × List Char)
  | [] => none
  | c :: rest =>
    if c = '"' then some ([], rest)
    else if c = '\\' then
      match rest with
      | [] => none
      | e :: rest2 =>
        match unescChar e with
        | none => none
        | some u =>
          match parseStrBody rest2 with
          | none => none
          | some (cs, r) => some (u :: cs, r)
    else
      match parseStrBody rest with
      | none => none
      | some (cs, r) => some (c :: cs, r)

/-- Read one field value: a string literal or `null`. -/
def parseVal : List Char → Option (JField × List Char)
  | [] => none
  | c :: rest =>
    if c = '"' then
      match parseStrBody rest with
      | none => none
      | some (cs, r) => some (JField.str (String.mk cs), r)
    else if c = 'n' then
      match rest with
      | 'u' :: 'l' :: 'l' :: r => some (JField.null, r)
      | _ => none
    else none

/-- Read one `"key": value` member. -/
def parseKV : List Char → Option ((String × JField) × List Char)
  | [] => none
  | c :: rest =>
    if c = '"' then
      match parseStrBody rest with
      | none => none
      | some (ks, r) =>
        match r with
        | ':' :: r2 =>
          match parseVal r2 with
          | none => none
          | some (v, r3) => some ((String.mk ks, v), r3)
        | _ => none
    else none

/-- Read the members of a non-empty object body up to the closing brace; the
fuel bounds the number of members and only needs to exceed it. -/
def parseFieldsAux : Nat → List Char → Option (Record × List Char)
  | 0, _ => none
  | fuel + 1, cs =>
    match parseKV cs with
    | none => none
    | some (kv, r) =>
      match r with
      | [] => none
      | c :: r2 =>
        if c = ',' then
          match parseFieldsAux fuel r2 with
          | none => none
          | some (fs, r3) => some (kv :: fs, r3)
        else if c = rbrace then some ([kv], r2)
        else none

/-- Read one record: an object. -/
def parseRecord : List Char → Option (Record × List Char)
  | [] => none
  | c :: rest =>
    if c = lbrace then
      match rest with
      | [] => none
      | d :: rest2 =>
        if d = rbrace then some ([], rest2)
        else
          match parseFieldsAux rest.length rest with
          | none => none
          | some (fs, r) => some (fs, r)
    else none

/-- Read the records of a non-empty array body up to the closing bracket; the
fuel bounds the number of records and only needs to exceed it. -/
def parseRecordsAux : Nat → List Char → Option (List Record × List Char)
  | 0, _ => none
  | fuel + 1, cs =>
    match parseRecord cs with
    | none => none
    | some (r, rst) =>
      match rst with
      | [] => none
      | c :: r2 =>
        if c = ',' then
          match parseRecordsAux fuel r2 with
          | none => none
          | some (rs, r3) => some (r :: rs, r3)
        else if c = ']' then some ([r], r2)
        else none

/-- Re-read a written JSON file: an array of flat objects, fully consumed. -/
def readJson (s : String) : Option (List Record) :=
  match s.data with
  | [] => none
  | c :: rest =>
    if c = '[' then
      if rest = [']'] then some []
      else
        match parseRecordsAux rest.length rest with
        | none => none
        | some (rs, r) => if r = [] then some rs else none
    else none

/-- Content `save_df` writes for a record-mode frame (src/main.py:102-105):
CSV exactly when the format string is `"csv"`, the JSON branch otherwise. -/
def save_records_content (data : List Record) (fmt : String) : String :=
  if fmt = "csv" then toCsvRecords data else writeJson data

/-- Field-name list of a record, in order. -/
def recordFields (r : Record) : List String :=
  r.map (fun kv => kv.1)

/-! ## Concrete fixtures used by counterexamples and witnesses -/

/-- A concrete parsed document: one anchor, one paragraph, a selector that
matches nothing. -/
def sampleSoup : Soup :=
  { anchors := [{ text := "home", href := some "/idx" }]
    paras := ["hello"]
    selectTexts := fun _ => [] }

/-- Three concrete one-column parsed tables. -/
def sampleTables : List Table :=
  [{ columns := ["a"], rows := [[JField.str "0"]] },
   { columns := ["a"], rows := [[JField.str "1"]] },
   { columns := ["a"], rows := [[JField.str "2"]] }]

/-- Inputs of a static-fetch LINKS run with default format and basename. -/
def inpStaticFail : Inputs :=
  { url := "http://example.test", what := "2", js := "", tableSel := ""
    cssSelector := "", fmt := "", name := "" }

/-- Environment whose static HTTP fetch raises a connection error. -/
def envStaticFail : Env :=
  { staticResult := Except.error "ConnectionError"
    dyn := { navigate := Except.ok (), waitStep := Except.ok (), pageSource := Except.ok "" }
    tablesOf := fun _ => []
    soupOf := fun _ => sampleSoup }

/-- Inputs of a static-fetch TABLES run. -/
def inpTables : Inputs :=
  { url := "http://example.test", what := "1", js := "", tableSel := ""
    cssSelector := "", fmt := "", name := "" }

/-- Environment whose static fetch succeeds on a page with zero parsed tables
and whose document matches no selector. -/
def envNoTables : Env :=
  { staticResult := Except.ok "<html>"
    dyn := { navigate := Except.ok (), waitStep := Except.ok (), pageSource := Except.ok "" }
    tablesOf := fun _ => []
    soupOf := fun _ => sampleSoup }

/-- Inputs of a static-fetch CSS_SELECTOR run. -/
def inpCss : Inputs :=
  { url := "http://example.test", what := "4", js := "", tableSel := ""
    cssSelector := "div.missing", fmt := "json", name := "report.old" }

/-! ## Round-trip lemmas for the JSON writer -/

/-- Reading an escaped character then a parsed tail prepends the character. -/
theorem parseStrBody_escaped (ek k : Char) (hk : unescChar ek = some k)
    (Y cs rest : List Char) (hY : parseStrBody Y = some (cs, rest)) :
    parseStrBody ('\\' :: ek :: Y) = some (k :: cs, rest) := by
  rw [parseStrBody.eq_def]
  simp [hk, hY]

/-- Reading an unescaped character then a parsed tail prepends the character. -/
theorem parseStrBody_verbatim (c : Char) (h1 : ¬c = '"') (h2 : ¬c = '\\')
    (Y cs rest : List Char) (hY : parseStrBody Y = some (cs, rest)) :
    parseStrBody (c :: Y) = some (c :: cs, rest) := by
  rw [parseStrBody.eq_def]
  simp [h1, h2, hY]

/-- Reading a written string body recovers the characters and the rest. -/
theorem parseStrBody_escList (cs : List Char) (rest : List Char) :
    parseStrBody (escList cs ++ ('"' :: rest)) = some (cs, rest) := by
  induction cs with
  | nil =>
    show parseStrBody ('"' :: rest) = some ([], rest)
    rw [parseStrBody.eq_def]
    simp
  | cons c cs ih =>
    have hstep : escList (c :: cs) ++ ('"' :: rest) = escChar c ++ (escList cs ++ ('"' :: rest)) := by
      simp [escList]
    rw [hstep]
    by_cases h1 : c = '"'
    · subst h1
      exact parseStrBody_escaped '"' '"' rfl _ cs rest ih
    · by_cases h2 : c = '\\'
      · subst h2
        exact parseStrBody_escaped '\\' '\\' rfl _ cs rest ih
      · by_cases h3 : c = '\n'
        · subst h3
          exact parseStrBody_escaped 'n' '\n' rfl _ cs rest ih
        · by_cases h4 : c = '\r'
          · subst h4
            exact parseStrBody_escaped 'r' '\r' rfl _ cs rest ih
          · by_cases h5 : c = '\t'
            · subst h5
              exact parseStrBody_escaped 't' '\t' rfl _ cs rest ih
            · have he : escChar c = [c] := by simp [escChar, h1, h2, h3, h4, h5]
              rw [he]
              exact parseStrBody_verbatim c h1 h2 _ cs rest ih

/-- Reading a written value recovers it. -/
theorem parseVal_write (v : JField) (rest : List Char) :
    parseVal (writeVal v ++ rest) = some (v, rest) := by
  cases v with
  | null => simp [writeVal, parseVal]
  | str s =>
    cases s with
    | mk data =>
      have h : writeVal (JField.str (String.mk data)) ++ rest
          = '"' :: (escList data ++ ('"' :: rest)) := by
        simp [writeVal]
      rw [h]
      simp [parseVal, parseStrBody_escList]

/-- Reading a written member recovers it. -/
theorem parseKV_write (k : String) (v : JField) (rest : List Char) :
    parseKV (writeKV k v ++ rest) = some ((k, v), rest) := by
  cases k with
  | mk kd =>
    have h : writeKV (String.mk kd) v ++ rest
        = '"' :: (escList kd ++ ('"' :: ':' :: (writeVal v ++ rest))) := by
      simp [writeKV]
    rw [h]
    simp [parseKV, parseStrBody_escList, parseVal_write]

/-- Reading a written non-empty object body recovers the members, for any
fuel at least the member count. -/
theorem parseFieldsAux_write (t : Record) : ∀ (kv : String × JField) (fuel : Nat),
    (kv :: t).length ≤ fuel → ∀ (rest : List Char),
    parseFieldsAux fuel (writeFields (kv :: t) ++ (rbrace :: rest)) = some (kv :: t, rest) := by
  induction t with
  | nil =>
    intro kv fuel hf rest
    cases fuel with
    | zero => simp at hf
    | succ f =>
      obtain ⟨k, v⟩ := kv
      have hb : ¬(rbrace = ',') := by decide
      have h : writeFields [(k, v)] ++ (rbrace :: rest) = writeKV k v ++ (rbrace :: rest) := by
        simp [writeFields]
      rw [h, parseFieldsAux.eq_def]
      simp [parseKV_write, hb]
  | cons kv2 t ih =>
    intro kv fuel hf rest
    cases fuel with
    | zero => simp at hf
    | succ f =>
      obtain ⟨k, v⟩ := kv
      have hfs : (kv2 :: t).length ≤ f := by simp at hf ⊢; omega
      have h : writeFields ((k, v) :: kv2 :: t) ++ (rbrace :: rest)
          = writeKV k v ++ (',' :: (writeFields (kv2 :: t) ++ (rbrace :: rest))) := by
        simp [writeFields]
      rw [h, parseFieldsAux.eq_def]
      simp [parseKV_write, ih kv2 f hfs rest]

/-- A written non-empty object body starts with a quote. -/
theorem writeFields_cons_head (kv : String × JField) (t : Record) :
    ∃ X, writeFields (kv :: t) = '"' :: X := by
  obtain ⟨k, v⟩ := kv
  cases t with
  | nil => exact ⟨escList k.data ++ ('"' :: ':' :: writeVal v), rfl⟩
  | cons kv2 t =>
    exact ⟨(escList k.data ++ ('"' :: ':' :: writeVal v)) ++ (',' :: writeFields (kv2 :: t)), rfl⟩

/-- A written object body is at least as long as its member list. -/
theorem writeFields_len (t : Record) : ∀ (kv : String × JField),
    (kv :: t).length ≤ (writeFields (kv :: t)).length := by
  induction t with
  | nil => intro ⟨k, v⟩; simp [writeFields, writeKV]
  | cons kv2 t ih =>
    intro ⟨k, v⟩
    have := ih kv2
    simp [writeFields, writeKV] at this ⊢
    omega

/-- Reading a written record recovers it. -/
theorem parseRecord_write (r : Record) (rest : List Char) :
    parseRecord (writeRecord r ++ rest) = some (r, rest) := by
  cases r with
  | nil =>
    show parseRecord (lbrace :: rbrace :: rest) = some ([], rest)
    simp [parseRecord]
  | cons kv t =>
    have h0 : writeRecord (kv :: t) ++ rest = lbrace :: (writeFields (kv :: t) ++ (rbrace :: rest)) := by
      simp [writeRecord]
    rw [h0]
    obtain ⟨X, hX⟩ := writeFields_cons_head kv t
    have hq : ¬(('"' : Char) = rbrace) := by decide
    have hlen : (kv :: t).length ≤ (writeFields (kv :: t) ++ (rbrace :: rest)).length := by
      have := writeFields_len t kv
      simp at this ⊢
      omega
    rw [hX] at hlen ⊢
    have happ : ('"' :: X) ++ (rbrace :: rest) = '"' :: (X ++ (rbrace :: rest)) := rfl
    rw [happ] at hlen ⊢
    simp only [parseRecord, if_pos rfl, hq, if_false]
    have hrestore : ('"' :: (X ++ (rbrace :: rest))) = writeFields (kv :: t) ++ (rbrace :: rest) := by
      simp [hX]
    rw [List.length_cons] at hlen ⊢
    rw [hrestore, parseFieldsAux_write t kv ((X ++ (rbrace :: rest)).length + 1) hlen rest]
    simp

/-- A written non-empty array body starts with the left brace. -/
theorem writeRecords_cons_head (r : Record) (t : List Record) :
    ∃ X, writeRecords (r :: t) = lbrace :: X := by
  cases t with
  | nil => exact ⟨writeFields r ++ [rbrace], rfl⟩
  | cons r2 t => exact ⟨(writeFields r ++ [rbrace]) ++ (',' :: writeRecords (r2 :: t)), rfl⟩

/-- A written array body is at least as long as its record list. -/
theorem writeRecords_len (t : List Record) : ∀ (r : Record),
    (r :: t).length ≤ (writeRecords (r :: t)).length := by
  induction t with
  | nil => intro r; simp [writeRecords, writeRecord]
  | cons r2 t ih =>
    intro r
    have := ih r2
    simp [writeRecords, writeRecord] at this ⊢
    omega

/-- Reading a written non-empty array body recovers the records, for any fuel
at least the record count. -/
theorem parseRecordsAux_write (t : List Record) : ∀ (r : Record) (fuel : Nat),
    (r :: t).length ≤ fuel → ∀ (rest : List Char),
    parseRecordsAux fuel (writeRecords (r :: t) ++ (']' :: rest)) = some (r :: t, rest) := by
  induction t with
  | nil =>
    intro r fuel hf rest
    cases fuel with
    | zero => simp at hf
    | succ f =>
      have hb : ¬((']' : Char) = ',') := by decide
      have h : writeRecords [r] ++ (']' :: rest) = writeRecord r ++ (']' :: rest) := by
        simp [writeRecords]
      rw [h, parseRecordsAux.eq_def]
      simp [parseRecord_write, hb]
  | cons r2 t ih =>
    intro r fuel hf rest
    cases fuel with
    | zero => simp at hf
    | succ f =>
      have hfs : (r2 :: t).length ≤ f := by simp at hf ⊢; omega
      have h : writeRecords (r :: r2 :: t) ++ (']' :: rest)
          = writeRecord r ++ (',' :: (writeRecords (r2 :: t) ++ (']' :: rest))) := by
        simp [writeRecords]
      rw [h, parseRecordsAux.eq_def]
      simp [parseRecord_write, ih r2 f hfs rest]

/-- Full round trip: re-reading a written record list recovers it exactly. -/
theorem readJson_writeJson (rs : List Record) : readJson (writeJson rs) = some rs := by
  cases rs with
  | nil => rfl
  | cons r t =>
    obtain ⟨X, hX⟩ := writeRecords_cons_head r t
    have hlen : (r :: t).length ≤ (writeRecords (r :: t) ++ [']']).length := by
      have := writeRecords_len t r
      simp at this ⊢
      omega
    have hne : ¬(writeRecords (r :: t) ++ [']'] = [']']) := by
      rw [hX]
      simp
    show (match ('[' :: (writeRecords (r :: t) ++ [']'])) with
      | [] => none
      | c :: rest =>
        if c = '[' then
          if rest = [']'] then some []
          else
            match parseRecordsAux rest.length rest with
            | none => none
            | some (rs, r) => if r = [] then some rs else none
        else none) = some (r :: t)
    simp only [if_pos rfl, hne, if_false]
    have hp : parseRecordsAux (writeRecords (r :: t) ++ [']']).length (writeRecords (r :: t) ++ (']' :: [])) = some (r :: t, []) :=
      parseRecordsAux_write t r _ hlen []
    rw [hp]
    simp

/-! ## Claims -/

/-- C1 (counterexample): a run whose static fetch raises a connection error
has its exception caught and printed by the top-level guard, but the process
exits with status 0, not the nonzero failure status the claim states — the
`except Exception` handler only prints and the script then ends normally. -/
theorem c1_exception_exit_status_cex :
    mainRun inpStaticFail envStaticFail = MainResult.raised "ConnectionError" ∧
    topLevelOutput (mainRun inpStaticFail envStaticFail) = some "🚨  Hata: ConnectionError" ∧
    topLevelExit (mainRun inpStaticFail envStaticFail) = 0 :=
  ⟨rfl, rfl, rfl⟩

/-- C1 (amended): any exception escaping `main` other than an interrupt is
caught once at the top level and printed with the generic failure line, and
the process exits with status 0 (success), not a nonzero status. -/
theorem c1_exception_caught_printed_exit_zero :
    ∀ (inp : Inputs) (env : Env) (msg : String), mainRun inp env = MainResult.raised msg →
      topLevelExit (mainRun inp env) = 0 ∧
      topLevelOutput (mainRun inp env) = some ("🚨  Hata: " ++ msg) := by
  intro inp env msg h
  rw [h]
  exact ⟨rfl, rfl⟩

/-- C1 (witness): the amended statement applied at the concrete failing run. -/
theorem c1_exception_caught_printed_exit_zero_witness :
    topLevelExit (mainRun inpStaticFail envStaticFail) = 0 ∧
    topLevelOutput (mainRun inpStaticFail envStaticFail) = some ("🚨  Hata: " ++ "ConnectionError") :=
  c1_exception_caught_printed_exit_zero inpStaticFail envStaticFail "ConnectionError" rfl

/-- C2 (code bug): evaluating `fetch_dynamic_html` at a run whose navigation
step raises: the exception propagates and the launched browser is still
running, because `driver.quit()` is only on the success path (no
`try`/`finally`), contradicting the claimed unconditional termination. -/
theorem c2_browser_leak_on_navigation_error :
    fetch_dynamic_html
        { navigate := Except.error "NavigationError"
          waitStep := Except.ok ()
          pageSource := Except.ok "<html>" }
      = { browserRunning := true, result := Except.error "NavigationError" } := rfl

/-- C3 (counterexample): with three parsed tables, selection input `"5"`
yields zero valid indices and `pd.concat` of the empty list raises
`ValueError("No objects to concatenate")` — the result is an error, not an
empty concatenation. -/
theorem c3_out_of_range_selection_cex :
    choose_tables sampleTables "5" = ChooseOutcome.raise "No objects to concatenate" ∧
    ∀ t, choose_tables sampleTables "5" ≠ ChooseOutcome.ok t := by
  refine ⟨rfl, ?_⟩
  intro t h
  rw [show choose_tables sampleTables "5" = ChooseOutcome.raise "No objects to concatenate" from rfl] at h
  exact ChooseOutcome.noConfusion h

/-- C3 (amended): for a non-empty table list, a non-empty, non-`"all"`
selection whose tokens yield zero valid indices makes the concatenation step
raise `ValueError("No objects to concatenate")`, which propagates as a run
failure; it does not produce an empty table. -/
theorem c3_empty_selection_raises :
    ∀ (dfs : List Table) (sel : String), dfs ≠ [] →
      ¬(pyStrip sel = "") → ¬(pyLower (pyStrip sel) = "all") →
      selectedTables dfs (pyStrip sel) = [] →
      choose_tables dfs sel = ChooseOutcome.raise "No objects to concatenate" := by
  intro dfs sel h0 h1 h2 h3
  cases dfs with
  | nil => exact absurd rfl h0
  | cons d ds => simp [choose_tables, h1, h2, h3, pdConcat]

/-- C3 (witness): the amended statement applied at three tables and input
`"5"`. -/
theorem c3_empty_selection_raises_witness :
    choose_tables sampleTables "5" = ChooseOutcome.raise "No objects to concatenate" :=
  c3_empty_selection_raises sampleTables "5" (by decide) (by decide) (by decide) rfl

/-- C5: in TABLES mode, zero parsed tables make `choose_tables` call
`sys.exit(1)`; the `SystemExit` is not caught by the `except Exception`
guard, so the process exits with code 1 and nothing is ever handed to the
writer. -/
theorem c5_zero_tables_terminal :
    (∀ sel, choose_tables [] sel = ChooseOutcome.exit 1) ∧
    ∀ (inp : Inputs) (env : Env) (html : String),
      fetchHtml inp env = Except.ok html →
      pyStrip inp.what = "1" →
      env.tablesOf html = [] →
      mainRun inp env = MainResult.exited 1 ∧
      topLevelExit (mainRun inp env) = 1 ∧
      ∀ f rs, mainRun inp env ≠ MainResult.saved f rs := by
  constructor
  · intro sel; rfl
  · intro inp env html hf hw ht
    have hm : mainRun inp env = MainResult.exited 1 := by
      simp only [mainRun, hf]
      simp [hw, ht, choose_tables]
    refine ⟨hm, by rw [hm]; rfl, ?_⟩
    intro f rs h
    rw [hm] at h
    exact MainResult.noConfusion h

/-- C5 (witness): the statement applied at a concrete zero-table run. -/
theorem c5_zero_tables_terminal_witness :
    mainRun inpTables envNoTables = MainResult.exited 1 ∧
    topLevelExit (mainRun inpTables envNoTables) = 1 ∧
    ∀ f rs, mainRun inpTables envNoTables ≠ MainResult.saved f rs :=
  c5_zero_tables_terminal.2 inpTables envNoTables "<html>" rfl rfl rfl

/-- C6 (counterexample): the writer appends a dot plus the format string
as-is, so the reachable format input `"xml"` (any non-`csv` value falls into
the JSON branch) produces `report.xml` — an extension other than `.csv` or
`.json`, contradicting the claim's "never any other extension". -/
theorem c6_extension_cex :
    save_filename "report.old" "xml" = "report.xml" ∧
    List.isSuffixOf ".csv".data "report.xml".data = false ∧
    List.isSuffixOf ".json".data "report.xml".data = false := by
  refine ⟨rfl, by decide, by decide⟩

/-- C6 (amended): the writer strips any existing extension from the basename
and appends a dot plus the format string; for the formats `csv` and `json`
this yields `.csv`/`.json`, and in particular basename `report.old` with
format `json` yields `report.json`. -/
theorem c6_filename_amended :
    (∀ base fmt, save_filename base fmt = pathStem base ++ "." ++ fmt) ∧
    save_filename "report.old" "json" = "report.json" ∧
    save_filename "report.old" "csv" = "report.csv" ∧
    pathStem "report.old" = "report" :=
  ⟨fun _ _ => rfl, rfl, rfl, rfl⟩

/-- C9: the dynamic fetch path is selected iff the render-flag input, after
strip and lowercase, equals `"e"`; in particular `"y"`, `"yes"` and the empty
string select the static path, while `"e"` and `" E "` select the dynamic
path. -/
theorem c9_render_flag :
    (∀ s : String, fetchPathFor s = FetchPath.dynamic ↔ pyLower (pyStrip s) = "e") ∧
    fetchPathFor "y" = FetchPath.static ∧
    fetchPathFor "yes" = FetchPath.static ∧
    fetchPathFor "" = FetchPath.static ∧
    fetchPathFor "e" = FetchPath.dynamic ∧
    fetchPathFor " E " = FetchPath.dynamic := by
  refine ⟨?_, rfl, rfl, rfl, rfl, rfl⟩
  intro s
  constructor
  · intro h
    by_cases hc : pyLower (pyStrip s) = "e"
    · exact hc
    · exfalso
      revert h
      simp [fetchPathFor, usesDynamicFetch, hc]
  · intro h
    simp [fetchPathFor, usesDynamicFetch, h]

/-- C9 (witness): the selection rule applied at the concrete input `"E"`. -/
theorem c9_render_flag_witness :
    fetchPathFor "E" = FetchPath.dynamic :=
  (c9_render_flag.1 "E").mpr (by decide)

/-- C4: in CSS_SELECTOR mode, a selector matched against the parsed document
by `soup.select` that returns zero elements yields an empty record list, and
the run proceeds to save it and exits with status 0 — a success, not an
error. -/
theorem c4_css_zero_match_empty_success :
    ∀ (inp : Inputs) (env : Env) (html : String),
      fetchHtml inp env = Except.ok html →
      pyStrip inp.what = "4" →
      (env.soupOf html).selectTexts (pyStrip inp.cssSelector) = [] →
      extract_by_css (env.soupOf html) (pyStrip inp.cssSelector) = [] ∧
      ∃ f, mainRun inp env = MainResult.saved f (ResultSet.records []) ∧
        topLevelExit (mainRun inp env) = 0 := by
  intro inp env html hf hw hs
  have hx : extract_by_css (env.soupOf html) (pyStrip inp.cssSelector) = [] := by
    simp [extract_by_css, hs]
  refine ⟨hx, ?_⟩
  have hm : mainRun inp env = MainResult.saved
      (save_filename (if pyStrip inp.name = "" then "extracted" else pyStrip inp.name)
        (if pyLower (pyStrip inp.fmt) = "" then "csv" else pyLower (pyStrip inp.fmt)))
      (ResultSet.records []) := by
    simp only [mainRun, hf]
    simp [hw, hx]
  exact ⟨_, hm, by rw [hm]; rfl⟩

/-- C4 (witness): the statement applied at a concrete zero-match run. -/
theorem c4_css_zero_match_empty_success_witness :
    extract_by_css (envNoTables.soupOf "<html>") (pyStrip inpCss.cssSelector) = [] ∧
    ∃ f, mainRun inpCss envNoTables = MainResult.saved f (ResultSet.records []) ∧
      topLevelExit (mainRun inpCss envNoTables) = 0 :=
  c4_css_zero_match_empty_success inpCss envNoTables "<html>" rfl rfl rfl

/-- C7: re-reading a written JSON file reproduces every record exactly —
values and field order — and the writer leaves non-ASCII characters verbatim
(no forced ASCII escaping). -/
theorem c7_json_roundtrip :
    (∀ rs : List Record, readJson (writeJson rs) = some rs) ∧
    (∀ c : Char, 127 < c.toNat → escChar c = [c]) := by
  constructor
  · exact readJson_writeJson
  · intro c h
    have h1 : ¬(c = '"') := by rintro rfl; exact absurd h (by decide)
    have h2 : ¬(c = '\\') := by rintro rfl; exact absurd h (by decide)
    have h3 : ¬(c = '\n') := by rintro rfl; exact absurd h (by decide)
    have h4 : ¬(c = '\r') := by rintro rfl; exact absurd h (by decide)
    have h5 : ¬(c = '\t') := by rintro rfl; exact absurd h (by decide)
    simp [escChar, h1, h2, h3, h4, h5]

/-- C7 (witness): the round trip applied at a record with non-Latin text and
a null field, and the verbatim-escape fact at a non-ASCII character. -/
theorem c7_json_roundtrip_witness :
    readJson (writeJson [[("başlık", JField.str "köşe yazısı"), ("href", JField.null)]])
      = some [[("başlık", JField.str "köşe yazısı"), ("href", JField.null)]] ∧
    escChar 'ş' = ['ş'] :=
  ⟨c7_json_roundtrip.1 _, c7_json_roundtrip.2 'ş' (by decide)⟩

/-- C8: every record produced by LINKS, PARAGRAPHS and CSS_SELECTOR carries
exactly that mode's fixed field set, in order: `text, href`; `paragraph`;
`selector, text`. -/
theorem c8_mode_schemas :
    (∀ (soup : Soup), ∀ r ∈ extract_links soup, recordFields r = ["text", "href"]) ∧
    (∀ (soup : Soup), ∀ r ∈ extract_paragraphs soup, recordFields r = ["paragraph"]) ∧
    (∀ (soup : Soup) (sel : String), ∀ r ∈ extract_by_css soup sel,
      recordFields r = ["selector", "text"]) := by
  refine ⟨?_, ?_, ?_⟩
  · intro soup r hr
    simp only [extract_links, List.mem_map] at hr
    obtain ⟨a, _, rfl⟩ := hr
    rfl
  · intro soup r hr
    simp only [extract_paragraphs, List.mem_map] at hr
    obtain ⟨p, _, rfl⟩ := hr
    rfl
  · intro soup sel r hr
    simp only [extract_by_css, List.mem_map] at hr
    obtain ⟨tx, _, rfl⟩ := hr
    rfl

/-- C8 (witness): the LINKS schema fact applied at the concrete document's
single anchor record. -/
theorem c8_mode_schemas_witness :
    recordFields [("text", JField.str "home"), ("href", JField.str "/idx")] = ["text", "href"] :=
  c8_mode_schemas.1 sampleSoup _ (by simp [extract_links, sampleSoup, hrefField])

/-- C10: a zero-record ResultSet (for example CSS_SELECTOR with zero
matches) builds a frame with no columns at all, so the CSV writer succeeds
but emits a header row with no field names — the mode's schema is not
materialized in the empty case. -/
theorem c10_empty_csv_no_header_fields :
    ∀ (soup : Soup) (sel : String), soup.selectTexts sel = [] →
      dfColumns (extract_by_css soup sel) = [] ∧
      csvHeader (extract_by_css soup sel) = "" ∧
      toCsvRecords (extract_by_css soup sel) = "\n" ∧
      save_records_content (extract_by_css soup sel) "csv" = "\n" := by
  intro soup sel h
  have hx : extract_by_css soup sel = [] := by
    simp [extract_by_css, h]
  rw [hx]
  exact ⟨rfl, rfl, rfl, rfl⟩

/-- C10 (witness): the statement applied at the concrete document and a
selector matching nothing. -/
theorem c10_empty_csv_no_header_fields_witness :
    dfColumns (extract_by_css sampleSoup "div.missing") = [] ∧
    csvHeader (extract_by_css sampleSoup "div.missing") = "" ∧
    toCsvRecords (extract_by_css sampleSoup "div.missing") = "\n" ∧
    save_records_content (extract_by_css sampleSoup "div.missing") "csv" = "\n" :=
  c10_empty_csv_no_header_fields sampleSoup "div.missing" rfl

end Crawl
